import Mathlib

/-!
# cyborg: the cyclus2origen interface (src/src/cyclus_origen_interface.h)

A shallow embedding of the `OrigenInterface::cyclus2origen` class.  The header
defines the state fields, their default member initialisers, the default
arguments of the accessors and two inline member functions
(`set_time_steps`, `set_power_scaling_factor`); those are embedded from the
source.  The members that are only declared in the header (`interpolate`,
`solve`, the ID accessors) are modelled from the specification and are marked
as such.

C++ `double` values are modelled as exact rationals (`ℚ`): rounding, infinities
and NaN are outside the model.  Nuclide IDs (`int`) are modelled as natural
numbers; every intermediate value of the conversions stays below `2^31`.
-/

namespace OrigenInterface

/-! ## Unit enumerations named by the header -/

/-- Values of `Origen::ConcentrationUnit` that the header refers to: the default
`KILOGRAMS` and the internal unit `cm^2/barn` of the note at lines 13-20. -/
inductive ConcentrationUnit where
  | CM_2_BARN
  | GRAMS
  | KILOGRAMS
  deriving DecidableEq, Repr

/-- Values of `Origen::Time::UNITS` listed in the comment at line 479. -/
inductive TimeUnits where
  | SECONDS
  | MINUTES
  | HOURS
  | DAYS
  | YEARS
  deriving DecidableEq, Repr

/-- Values of `Origen::Power::UNITS` listed in the comment at line 480. -/
inductive PowerUnits where
  | WATT
  | EV__S
  deriving DecidableEq, Repr

/-! ## Objects held through shared pointers -/

/-- A depletion library along one interpolation parameter: its coordinate on
that parameter, its burnup axis and its concentration table, one row of
nuclide concentrations per burnup point (spec section 3, LibraryHandle). -/
structure Library where
  coord : ℚ
  burnup_axis : List ℚ
  concentrations : List (List ℚ)
  deriving DecidableEq, Repr

/-- The concentration of nuclide column `j` at burnup point `i`, if present. -/
def Library.entry (lib : Library) (i j : Nat) : Option ℚ :=
  (lib.concentrations[i]?).bind (fun row => row[j]?)

/-- The tag set of a library (`Origen::TagManager`): discrete identity tags and
continuous interpolation parameters. -/
structure TagManager where
  id_tags : List (String × String)
  interp_tags : List (String × ℚ)
  deriving DecidableEq, Repr

/-- Mode of a depletion step (spec section 3, StepRecord). -/
inductive Mode where
  | FLUX
  | POWER
  deriving DecidableEq, Repr

/-- One solved depletion step (spec section 3, StepRecord). -/
structure StepRecord where
  start_time : ℚ
  end_time : ℚ
  flux_or_power_value : ℚ
  mode : Mode
  burnup_start : ℚ
  burnup_end : ℚ
  nuclide_vector : List ℚ
  deriving DecidableEq, Repr

/-- The material being depleted (`Origen::Material`): nuclide IDs in pizzzaaa
format and the current amount of each. -/
structure Material where
  ids : List Nat
  amounts : List ℚ
  deriving DecidableEq, Repr

/-! ## The interface object -/

/-- The data members of `cyclus2origen` (lines 463-480), in declaration order.
A shared pointer is an `Option`: `none` is the null pointer. -/
structure cyclus2origen where
  b_lib : Option Library
  b_lib_interp : Option Library
  b_tm : Option TagManager
  b_tagman_list : List TagManager
  b_mat : Option Material
  b_nucset : List Nat
  b_concs : Option (List ℚ)
  b_lib_names : List String
  b_lib_path : String
  b_vol : ℚ
  b_burnups : List ℚ
  b_fluxes : List ℚ
  b_powers : List ℚ
  b_times : List ℚ
  b_concUnits : ConcentrationUnit
  b_timeUnits : TimeUnits
  b_powerUnits : PowerUnits
  deriving DecidableEq, Repr

namespace cyclus2origen

/-- The implicitly defined default constructor: every member without an
initialiser is empty or null, and the members at lines 473 and 478-480 take
their default member initialisers. -/
def new : cyclus2origen where
  b_lib := none
  b_lib_interp := none
  b_tm := none
  b_tagman_list := []
  b_mat := none
  b_nucset := []
  b_concs := none
  b_lib_names := []
  b_lib_path := ""
  b_vol := 1
  b_burnups := []
  b_fluxes := []
  b_powers := []
  b_times := []
  b_concUnits := ConcentrationUnit.KILOGRAMS
  b_timeUnits := TimeUnits.DAYS
  b_powerUnits := PowerUnits.WATT

/-- Line 148: `void set_time_steps(const std::vector<double>& times){ b_times = times; }`. -/
def set_time_steps (self : cyclus2origen) (times : List ℚ) : cyclus2origen :=
  { self with b_times := times }

/-- Lines 196-199:
`if(factor>=0.) for(auto& num : b_powers) num*=factor;`. -/
def set_power_scaling_factor (self : cyclus2origen) (factor : ℚ) : cyclus2origen :=
  if factor ≥ 0 then { self with b_powers := self.b_powers.map (fun num => num * factor) }
  else self

end cyclus2origen

/-- A burn step read off the stored times (doc comment at lines 142-147: the
times are those at which a burn step ends and, excepting the final value,
begins). -/
structure BurnStep where
  start_time : ℚ
  end_time : ℚ
  deriving DecidableEq, Repr

/-- The burn steps defined by a times vector: step `i` starts at `t[i]` and
ends at `t[i+1]`. -/
def burn_steps : List ℚ → List BurnStep
  | [] => []
  | [_] => []
  | t0 :: t1 :: rest => ⟨t0, t1⟩ :: burn_steps (t1 :: rest)

/-! ## Default arguments of the accessors -/

/-- Line 414: `get_times(const std::string units="d")`. -/
def get_times_default_units : String := "d"

/-- Line 420: `get_powers(const std::string units="W")`. -/
def get_powers_default_units : String := "W"

/-- Line 343: `get_masses(..., const std::string="kilograms")`. -/
def get_masses_default_units : String := "kilograms"

/-- Line 353: `get_masses_at(int, ..., const std::string="kilograms")`. -/
def get_masses_at_default_units : String := "kilograms"

/-- Line 355: `get_masses_at_map(int, ..., const std::string="kilograms", ...)`. -/
def get_masses_at_map_default_units : String := "kilograms"

/-- Line 365: `get_masses_final(..., const std::string="kilograms")`. -/
def get_masses_final_default_units : String := "kilograms"

/-- Line 374: `get_masses_final_map(..., const std::string="kilograms", ...)`. -/
def get_masses_final_map_default_units : String := "kilograms"

/-- Time unit names of the comment at line 479 and the doc comment at lines
159-165: full words in all lower case. -/
def time_unit_names : List String := ["seconds", "minutes", "hours", "days", "years"]

/-- A name in all lower case: every character is a lower-case letter. -/
def is_all_lower_case (s : String) : Bool := s.data.all Char.isLower

/-- Every unit name the interface supplies as a default argument, in the order
of the header. -/
def default_unit_arguments : List String :=
  [get_masses_default_units, get_masses_at_default_units, get_masses_at_map_default_units,
   get_masses_final_default_units, get_masses_final_map_default_units,
   get_times_default_units, get_powers_default_units]


/-! ## Members declared in the header whose bodies are not in the sources -/

/-- Error taxonomy of spec section 7. -/
inductive Error where
  | SelectionError
  | AxisMismatchError
  | RangeError
  | ConfigurationError
  | IndexError
  | SolverError
  deriving DecidableEq, Repr

/-- Modelled from the spec: the body of `interpolate()` is missing; this is the
search of spec section 4.3 for the immediately lower coordinate, the matched
library with the greatest coordinate not above the target. -/
def lower_bracket : List Library → ℚ → Option Library
  | [], _ => none
  | l :: rest, target =>
    match lower_bracket rest target with
    | none => if l.coord ≤ target then some l else none
    | some b => if l.coord ≤ target ∧ b.coord < l.coord then some l else some b

/-- Modelled from the spec: the body of `interpolate()` is missing; this is the
search of spec section 4.3 for the immediately upper coordinate, the matched
library with the least coordinate not below the target. -/
def upper_bracket : List Library → ℚ → Option Library
  | [], _ => none
  | l :: rest, target =>
    match upper_bracket rest target with
    | none => if target ≤ l.coord then some l else none
    | some b => if target ≤ l.coord ∧ l.coord < b.coord then some l else some b

/-- Modelled from the spec: the body of `interpolate()` is missing; the weight
of spec section 4.3, `w = (target - lower)/(upper - lower)`. -/
def weight (lower upper target : ℚ) : ℚ := (target - lower) / (upper - lower)

/-- Modelled from the spec: the body of `interpolate()` is missing; the linear
blend of two entries with weight `w`. -/
def blend (w x y : ℚ) : ℚ := (1 - w) * x + w * y

/-- Modelled from the spec: the body of `interpolate()` is missing.  One
parameter dimension of spec section 4.3 over the matched libraries:
* no bracketing coordinate on one side of the target: `RangeError`, no
  extrapolation;
* target equal to a cataloged coordinate: that library is passed through;
* otherwise every matched library must share the burnup axis of the reference
  library (the lower bracket), else `AxisMismatchError`; the weight is applied
  to every burnup-point concentration entry. -/
def interpolate (selected : List Library) (target : ℚ) : Except Error Library :=
  match lower_bracket selected target, upper_bracket selected target with
  | some lo, some hi =>
    if lo.coord = target then Except.ok lo
    else if selected.all (fun l => decide (l.burnup_axis = lo.burnup_axis)) then
      Except.ok
        { coord := target
          burnup_axis := lo.burnup_axis
          concentrations :=
            List.zipWith (List.zipWith (blend (weight lo.coord hi.coord target)))
              lo.concentrations hi.concentrations }
    else Except.error Error.AxisMismatchError
  | _, _ => Except.error Error.RangeError

/-- Modelled from the spec: the body of `prob_spec_lib` is missing; the burnup
points of a library, each as a one-row library whose coordinate is its
burnup. -/
def burnup_points (lib : Library) : List Library :=
  List.zipWith (fun b row => { coord := b, burnup_axis := [], concentrations := [row] })
    lib.burnup_axis lib.concentrations

/-- Modelled from the spec: the body of `prob_spec_lib` is missing; the slice of
the problem library at a burnup, by the bracket and weight rule of section 4.3
along the burnup dimension only (spec section 4.5). -/
def slice_at_burnup (lib : Library) (burnup : ℚ) : Except Error (List ℚ) :=
  match interpolate (burnup_points lib) burnup with
  | Except.ok l => Except.ok (l.concentrations.headD [])
  | Except.error e => Except.error e

/-- The collaborators that the spec leaves outside the system (section 1): the
depletion solver, the heavy-metal mass of a material and the two
proportionality constants of the burnup increment. -/
structure Collaborators where
  solver : Material → List ℚ → ℚ → Option Material
  heavy_metal_mass : Material → ℚ
  flux_burnup_factor : ℚ
  power_burnup_factor : ℚ

/-- Modelled from the spec: the body of `solve` is missing; the state of the
step orchestrator of spec sections 3 and 4.5: the problem library, the
material state and the append-only sequence of step records.  The field
`solver_calls` is a ghost counter of the invocations of the solver. -/
structure Orchestrator where
  problem_library : Library
  material : Material
  records : List StepRecord
  solver_calls : Nat
  deriving DecidableEq, Repr

/-- Modelled from the spec: the body of `solve` is missing; the guard of the
transition CONFIGURED to SOLVING (spec sections 4.5 and 7, and the note at
lines 331-332 of the header): never both fluxes and powers, times non-empty
and non-decreasing, and one flux or power per step. -/
def validate_history (times fluxes powers : List ℚ) : Except Error (Mode × List ℚ) :=
  if fluxes ≠ [] ∧ powers ≠ [] then Except.error Error.ConfigurationError
  else if times = [] then Except.error Error.ConfigurationError
  else if ¬ (burn_steps times).all (fun s => decide (s.start_time ≤ s.end_time)) then
    Except.error Error.ConfigurationError
  else
    let history := if fluxes ≠ [] then (Mode.FLUX, fluxes) else (Mode.POWER, powers)
    if history.2.length = times.length - 1 then Except.ok history
    else Except.error Error.ConfigurationError

/-- Modelled from the spec: the body of `prob_spec_lib` is missing; the burnup
increment of one step (spec section 4.4): proportional to flux times duration
in FLUX mode, to power times duration over the heavy-metal mass in POWER
mode. -/
def burnup_increment (c : Collaborators) (mode : Mode) (value duration : ℚ)
    (m : Material) : ℚ :=
  match mode with
  | Mode.FLUX => c.flux_burnup_factor * (value * duration)
  | Mode.POWER => c.power_burnup_factor * (value * duration) / c.heavy_metal_mass m

/-- Burnup reached so far: the end-of-step burnup of the last record. -/
def current_burnup (o : Orchestrator) : ℚ :=
  match o.records.getLast? with
  | some r => r.burnup_end
  | none => 0

/-- Modelled from the spec: the body of `solve` is missing; the SOLVING
iterations of spec section 4.5.  Each step derives its target burnup, takes the
library slice at it, calls the solver once, replaces the material state and
appends a record; a failing step aborts the solve and keeps the records of the
completed steps. -/
def solve_steps (c : Collaborators) (mode : Mode) :
    List ℚ → List ℚ → Orchestrator → Orchestrator × Option Error
  | t0 :: t1 :: ts, v :: vs, o =>
    let burnup_end := current_burnup o + burnup_increment c mode v (t1 - t0) o.material
    match slice_at_burnup o.problem_library burnup_end with
    | Except.error e => (o, some e)
    | Except.ok xs =>
      match c.solver o.material xs (t1 - t0) with
      | none => ({ o with solver_calls := o.solver_calls + 1 }, some Error.SolverError)
      | some m =>
        solve_steps c mode (t1 :: ts) vs
          { o with
            material := m
            solver_calls := o.solver_calls + 1
            records := o.records ++
              [{ start_time := t0
                 end_time := t1
                 flux_or_power_value := v
                 mode := mode
                 burnup_start := current_burnup o
                 burnup_end := burnup_end
                 nuclide_vector := m.amounts }] }
  | _, _, o => (o, none)

/-- Modelled from the spec: the body of `solve(times, fluxes, powers)` is
missing; the history is validated first and only a valid history reaches the
solving iterations.  The result is the state after the call and the error
raised, if any. -/
def solve (c : Collaborators) (o : Orchestrator) (times fluxes powers : List ℚ) :
    Orchestrator × Option Error :=
  match validate_history times fluxes powers with
  | Except.error e => (o, some e)
  | Except.ok history => solve_steps c history.1 times history.2 o

/-! ## Nuclide ID encodings -/

/-- Modelled from the spec: the conversion helpers are missing; a nuclide is its
atomic number, mass number and isomer flag (spec section 3 and glossary). -/
structure Nuclide where
  zzz : Nat
  aaa : Nat
  i : Nat
  deriving DecidableEq, Repr

/-- Modelled from the spec: the conversion helpers are missing; reading of a
zzzaaai ID, digits `zzz aaa i`. -/
def nuclide_of_zzzaaai (id : Nat) : Nuclide :=
  { zzz := id / 10000, aaa := (id / 10) % 1000, i := id % 10 }

/-- Modelled from the spec: the conversion helpers are missing; reading of a
pizzzaaa ID, digits `p i zzz aaa`. -/
def nuclide_of_pizzzaaa (id : Nat) : Nuclide :=
  { zzz := (id / 1000) % 1000, aaa := id % 1000, i := (id / 1000000) % 10 }

/-- Modelled from the spec: the conversion helpers are missing; the zzzaaai
encoding of a nuclide. -/
def Nuclide.zzzaaai (n : Nuclide) : Nat := n.zzz * 10000 + n.aaa * 10 + n.i

/-- Modelled from the spec: the conversion helpers are missing; the pizzzaaa
encoding of a nuclide, with leading digit `p = 0`. -/
def Nuclide.pizzzaaa (n : Nuclide) : Nat := n.i * 1000000 + n.zzz * 1000 + n.aaa

/-- Modelled from the spec: the conversion helper is missing. -/
def zzzaaai_to_pizzzaaa (id : Nat) : Nat := (nuclide_of_zzzaaai id).pizzzaaa

/-- Modelled from the spec: the conversion helper is missing. -/
def pizzzaaa_to_zzzaaai (id : Nat) : Nat := (nuclide_of_pizzzaaa id).zzzaaai

/-- A well-formed zzzaaai ID has at most seven digits. -/
def valid_zzzaaai (id : Nat) : Prop := id < 10000000

instance : DecidablePred valid_zzzaaai :=
  fun id => inferInstanceAs (Decidable (id < 10000000))

/-- A well-formed pizzzaaa ID with `p = 0` has at most seven digits. -/
def valid_pizzzaaa (id : Nat) : Prop := id < 10000000

instance : DecidablePred valid_pizzzaaa :=
  fun id => inferInstanceAs (Decidable (id < 10000000))

/-- Modelled from the spec: the body of `get_ids` is missing; the IDs of the
material in pizzzaaa format (doc comment at lines 377-383), `none` when no
material is set. -/
def cyclus2origen.get_ids (self : cyclus2origen) : Option (List Nat) :=
  self.b_mat.map (fun m => m.ids)

/-- Modelled from the spec: the body of `get_ids_zzzaaai` is missing; the same
IDs in zzzaaai format (doc comment at lines 386-390). -/
def cyclus2origen.get_ids_zzzaaai (self : cyclus2origen) : Option (List Nat) :=
  self.get_ids.map (fun ids => ids.map pizzzaaa_to_zzzaaai)


/-! ## Example data -/

/-- Library at enrichment 3 on the burnup axis `[0, 10, 20]` (spec section 8). -/
def lib_enrichment_3 : Library :=
  { coord := 3, burnup_axis := [0, 10, 20], concentrations := [[1, 2], [3, 4], [5, 6]] }

/-- Library at enrichment 5 on the burnup axis `[0, 10, 20]` (spec section 8). -/
def lib_enrichment_5 : Library :=
  { coord := 5, burnup_axis := [0, 10, 20], concentrations := [[3, 1], [5, 8], [7, 10]] }

/-- Library at enrichment 2 on the burnup axis `[0, 10, 20]`. -/
def lib_enrichment_2 : Library :=
  { coord := 2, burnup_axis := [0, 10, 20], concentrations := [[9, 9], [9, 9], [9, 9]] }

/-- Library at enrichment 7/2 on the burnup axis `[0, 10, 20]`. -/
def lib_enrichment_7_2 : Library :=
  { coord := 7 / 2, burnup_axis := [0, 10, 20], concentrations := [[100, 2], [3, 4], [5, 6]] }

/-- A matched set of three libraries whose brackets around 4 are the libraries
at 3 and 5. -/
def matched_2_3_5 : List Library := [lib_enrichment_5, lib_enrichment_2, lib_enrichment_3]

/-- A matched set of three libraries in which a library lies between those at 3
and 5. -/
def matched_3_7_2_5 : List Library := [lib_enrichment_3, lib_enrichment_7_2, lib_enrichment_5]

/-- An orchestrator with no solved step. -/
def orchestrator_example : Orchestrator :=
  { problem_library := lib_enrichment_3
    material := { ids := [92235, 92238], amounts := [4, 96] }
    records := []
    solver_calls := 0 }

/-- Collaborators whose solver leaves the material as it is. -/
def collaborators_example : Collaborators :=
  { solver := fun m _ _ => some m
    heavy_metal_mass := fun _ => 1
    flux_burnup_factor := 1
    power_burnup_factor := 1 / 20000 }

/-- An interface object holding a power history and a material. -/
def interface_example : cyclus2origen :=
  { cyclus2origen.new with
    b_times := [0, 100, 200]
    b_powers := [1000, 500]
    b_mat := some { ids := [92235, 1095242], amounts := [4, 1] } }

/-! ## Burn steps and the power scaling factor -/

theorem burn_steps_length (t : List ℚ) : (burn_steps t).length = t.length - 1 := by
  induction t with
  | nil => rfl
  | cons t0 rest ih =>
    cases rest with
    | nil => rfl
    | cons t1 rest =>
      simp only [burn_steps, List.length_cons] at ih ⊢
      omega

theorem burn_steps_getElem? (t : List ℚ) (i : Nat) :
    (burn_steps t)[i]? =
      (t[i]?).bind (fun a => (t[i + 1]?).map (fun b => BurnStep.mk a b)) := by
  induction t generalizing i with
  | nil => simp [burn_steps]
  | cons t0 rest ih =>
    cases rest with
    | nil => cases i <;> simp [burn_steps]
    | cons t1 rest =>
      cases i with
      | zero => simp [burn_steps]
      | succ k =>
        have h := ih k
        simp only [burn_steps, List.getElem?_cons_succ] at h ⊢
        exact h

/-- C4: for every times vector stored by `set_time_steps`, the burn steps it
defines (step `i` starts at `t[i]` and ends at `t[i+1]`, one step fewer than
there are times) are contiguous: whenever steps `i` and `i+1` exist, the end
time of step `i` equals the start time of step `i+1`. -/
theorem C4_step_contiguity (self : cyclus2origen) (t : List ℚ) (i : Nat) (s s' : BurnStep)
    (h : (burn_steps (self.set_time_steps t).b_times)[i]? = some s)
    (h' : (burn_steps (self.set_time_steps t).b_times)[i + 1]? = some s') :
    (burn_steps (self.set_time_steps t).b_times).length = t.length - 1 ∧
    t[i]? = some s.start_time ∧ t[i + 1]? = some s.end_time ∧
    s.end_time = s'.start_time := by
  simp only [cyclus2origen.set_time_steps, burn_steps_getElem?] at h h'
  refine ⟨burn_steps_length t, ?_⟩
  cases h0 : t[i]? with
  | none => simp [h0] at h
  | some a =>
    cases h1 : t[i + 1]? with
    | none => simp [h0, h1] at h
    | some b =>
      cases h2 : t[i + 1 + 1]? with
      | none => simp [h1, h2] at h'
      | some c =>
        simp only [h0, h1, h2, Option.some_bind, Option.map_some', Option.some.injEq] at h h'
        subst h
        subst h'
        exact ⟨rfl, rfl, rfl⟩

theorem C4_step_contiguity_witness :
    (burn_steps (cyclus2origen.new.set_time_steps [0, 100, 200]).b_times)[0]? = some ⟨0, 100⟩ ∧
    (burn_steps (cyclus2origen.new.set_time_steps [0, 100, 200]).b_times)[0 + 1]?
      = some ⟨100, 200⟩ ∧
    (burn_steps (cyclus2origen.new.set_time_steps [0, 100, 200]).b_times).length
      = [(0 : ℚ), 100, 200].length - 1 ∧
    [(0 : ℚ), 100, 200][0]? = some (BurnStep.mk 0 100).start_time ∧
    [(0 : ℚ), 100, 200][0 + 1]? = some (BurnStep.mk 0 100).end_time ∧
    (BurnStep.mk 0 100).end_time = (BurnStep.mk 100 200).start_time :=
  ⟨rfl, rfl, C4_step_contiguity cyclus2origen.new [0, 100, 200] 0 ⟨0, 100⟩ ⟨100, 200⟩ rfl rfl⟩

/-- C5: for every factor `>= 0`, `set_power_scaling_factor(factor)` leaves a
powers vector of the same length whose `i`-th entry is `p[i] * factor` for
every index `i`. -/
theorem C5_power_scaling (self : cyclus2origen) (factor : ℚ) (h : 0 ≤ factor) :
    (self.set_power_scaling_factor factor).b_powers.length = self.b_powers.length ∧
    ∀ i : Nat, (self.set_power_scaling_factor factor).b_powers[i]?
      = (self.b_powers[i]?).map (fun p => p * factor) := by
  simp [cyclus2origen.set_power_scaling_factor, h]

theorem C5_power_scaling_witness :
    (0 : ℚ) ≤ 2 ∧
    (interface_example.set_power_scaling_factor 2).b_powers.length
      = interface_example.b_powers.length ∧
    ∀ i : Nat, (interface_example.set_power_scaling_factor 2).b_powers[i]?
      = (interface_example.b_powers[i]?).map (fun p => p * 2) :=
  ⟨by norm_num, C5_power_scaling interface_example 2 (by norm_num)⟩

/-- C6: on a newly constructed interface object the time unit is days, the
power unit is watts and the concentration unit is kilograms. -/
theorem C6_default_units :
    cyclus2origen.new.b_timeUnits = TimeUnits.DAYS ∧
    cyclus2origen.new.b_powerUnits = PowerUnits.WATT ∧
    cyclus2origen.new.b_concUnits = ConcentrationUnit.KILOGRAMS :=
  ⟨rfl, rfl, rfl⟩

/-- C9: for every factor `< 0`, `set_power_scaling_factor(factor)` returns the
state it was given: the powers and every other field are unchanged, and the
function has no error result. -/
theorem C9_negative_factor_no_op (self : cyclus2origen) (factor : ℚ) (h : factor < 0) :
    self.set_power_scaling_factor factor = self := by
  simp [cyclus2origen.set_power_scaling_factor, not_le.mpr h]

theorem C9_negative_factor_no_op_witness :
    (-1 : ℚ) < 0 ∧ interface_example.set_power_scaling_factor (-1) = interface_example :=
  ⟨by norm_num, C9_negative_factor_no_op interface_example (-1) (by norm_num)⟩

/-- C10: for every factor and every state, `set_power_scaling_factor(factor)`
changes no field other than the powers, and keeps the number of powers, so
that `len(powers) == len(times) - 1` holds after the call exactly when it held
before. -/
theorem C10_power_scaling_frame (self : cyclus2origen) (factor : ℚ) :
    { self.set_power_scaling_factor factor with b_powers := self.b_powers } = self ∧
    (self.set_power_scaling_factor factor).b_times = self.b_times ∧
    (self.set_power_scaling_factor factor).b_fluxes = self.b_fluxes ∧
    (self.set_power_scaling_factor factor).b_burnups = self.b_burnups ∧
    (self.set_power_scaling_factor factor).b_timeUnits = self.b_timeUnits ∧
    (self.set_power_scaling_factor factor).b_powerUnits = self.b_powerUnits ∧
    (self.set_power_scaling_factor factor).b_concUnits = self.b_concUnits ∧
    (self.set_power_scaling_factor factor).b_powers.length = self.b_powers.length ∧
    ((self.set_power_scaling_factor factor).b_powers.length
        = (self.set_power_scaling_factor factor).b_times.length - 1
      ↔ self.b_powers.length = self.b_times.length - 1) := by
  unfold cyclus2origen.set_power_scaling_factor
  split <;> simp

/-! ## Interpolation between matched libraries -/

theorem lower_bracket_none (selected : List Library) (target : ℚ)
    (h : ∀ l ∈ selected, target < l.coord) : lower_bracket selected target = none := by
  induction selected with
  | nil => rfl
  | cons l rest ih =>
    have hl : ¬ l.coord ≤ target := not_le.mpr (h l (List.mem_cons_self l rest))
    have hrest := ih (fun x hx => h x (List.mem_cons_of_mem l hx))
    simp [lower_bracket, hrest, hl]

theorem upper_bracket_none (selected : List Library) (target : ℚ)
    (h : ∀ l ∈ selected, l.coord < target) : upper_bracket selected target = none := by
  induction selected with
  | nil => rfl
  | cons l rest ih =>
    have hl : ¬ target ≤ l.coord := not_le.mpr (h l (List.mem_cons_self l rest))
    have hrest := ih (fun x hx => h x (List.mem_cons_of_mem l hx))
    simp [upper_bracket, hrest, hl]

theorem weight_pos_lt_one (lower upper target : ℚ) (h_lo : lower < target)
    (h_hi : target < upper) :
    0 < weight lower upper target ∧ weight lower upper target < 1 := by
  have hd : 0 < upper - lower := by linarith
  unfold weight
  constructor
  · exact div_pos (by linarith) hd
  · rw [div_lt_one hd]
    linarith

theorem blend_between (w x y : ℚ) (h0 : 0 < w) (h1 : w < 1) :
    min x y ≤ blend w x y ∧ blend w x y ≤ max x y := by
  unfold blend
  rcases le_total x y with hxy | hxy
  · rw [min_eq_left hxy, max_eq_right hxy]
    constructor <;> nlinarith
  · rw [min_eq_right hxy, max_eq_left hxy]
    constructor <;> nlinarith

theorem entry_zipWith (f : ℚ → ℚ → ℚ) (c a b : Library)
    (h : c.concentrations = List.zipWith (List.zipWith f) a.concentrations b.concentrations)
    (i j : Nat) :
    c.entry i j = (a.entry i j).bind (fun x => (b.entry i j).map (fun y => f x y)) := by
  unfold Library.entry
  rw [h, List.getElem?_zipWith]
  cases a.concentrations[i]? with
  | none => simp
  | some ra =>
    cases b.concentrations[i]? with
    | none => cases ra[j]? <;> simp
    | some rb =>
      simp only [Option.some_bind, List.getElem?_zipWith]
      cases ra[j]? <;> cases rb[j]? <;> simp

theorem lower_bracket_cases (selected : List Library) (target : ℚ) :
    match lower_bracket selected target with
    | none => ∀ l ∈ selected, target < l.coord
    | some b => b ∈ selected ∧ b.coord ≤ target ∧
        ∀ l ∈ selected, l.coord ≤ target → l.coord ≤ b.coord := by
  induction selected with
  | nil => simp [lower_bracket]
  | cons x rest ih =>
    unfold lower_bracket
    cases h : lower_bracket rest target with
    | none =>
      rw [h] at ih
      simp only at ih ⊢
      by_cases hx : x.coord ≤ target
      · rw [if_pos hx]
        refine ⟨List.mem_cons_self x rest, hx, ?_⟩
        intro l hl hlt
        rcases List.mem_cons.mp hl with rfl | hl
        · exact le_refl _
        · exact absurd hlt (not_le.mpr (ih l hl))
      · rw [if_neg hx]
        intro l hl
        rcases List.mem_cons.mp hl with rfl | hl
        · exact not_le.mp hx
        · exact ih l hl
    | some b =>
      rw [h] at ih
      simp only at ih ⊢
      obtain ⟨hb_mem, hb_le, hb_max⟩ := ih
      by_cases hx : x.coord ≤ target ∧ b.coord < x.coord
      · rw [if_pos hx]
        refine ⟨List.mem_cons_self x rest, hx.1, ?_⟩
        intro l hl hlt
        rcases List.mem_cons.mp hl with rfl | hl
        · exact le_refl _
        · exact le_trans (hb_max l hl hlt) (le_of_lt hx.2)
      · rw [if_neg hx]
        refine ⟨List.mem_cons_of_mem x hb_mem, hb_le, ?_⟩
        intro l hl hlt
        rcases List.mem_cons.mp hl with rfl | hl
        · exact not_lt.mp (fun hlt' => hx ⟨hlt, hlt'⟩)
        · exact hb_max l hl hlt

theorem upper_bracket_cases (selected : List Library) (target : ℚ) :
    match upper_bracket selected target with
    | none => ∀ l ∈ selected, l.coord < target
    | some b => b ∈ selected ∧ target ≤ b.coord ∧
        ∀ l ∈ selected, target ≤ l.coord → b.coord ≤ l.coord := by
  induction selected with
  | nil => simp [upper_bracket]
  | cons x rest ih =>
    unfold upper_bracket
    cases h : upper_bracket rest target with
    | none =>
      rw [h] at ih
      simp only at ih ⊢
      by_cases hx : target ≤ x.coord
      · rw [if_pos hx]
        refine ⟨List.mem_cons_self x rest, hx, ?_⟩
        intro l hl hlt
        rcases List.mem_cons.mp hl with rfl | hl
        · exact le_refl _
        · exact absurd hlt (not_le.mpr (ih l hl))
      · rw [if_neg hx]
        intro l hl
        rcases List.mem_cons.mp hl with rfl | hl
        · exact not_le.mp hx
        · exact ih l hl
    | some b =>
      rw [h] at ih
      simp only at ih ⊢
      obtain ⟨hb_mem, hb_le, hb_min⟩ := ih
      by_cases hx : target ≤ x.coord ∧ x.coord < b.coord
      · rw [if_pos hx]
        refine ⟨List.mem_cons_self x rest, hx.1, ?_⟩
        intro l hl hlt
        rcases List.mem_cons.mp hl with rfl | hl
        · exact le_refl _
        · exact le_trans (le_of_lt hx.2) (hb_min l hl hlt)
      · rw [if_neg hx]
        refine ⟨List.mem_cons_of_mem x hb_mem, hb_le, ?_⟩
        intro l hl hlt
        rcases List.mem_cons.mp hl with rfl | hl
        · exact not_lt.mp (fun hlt' => hx ⟨hlt, hlt'⟩)
        · exact hb_min l hl hlt

theorem lower_bracket_eq (selected : List Library) (lo hi : Library) (target : ℚ)
    (h_lo_mem : lo ∈ selected) (h_lo : lo.coord < target) (h_hi : target < hi.coord)
    (h_adjacent : ∀ l ∈ selected, l.coord ≤ lo.coord ∨ hi.coord ≤ l.coord)
    (h_unique : ∀ l ∈ selected, l.coord = lo.coord → l = lo) :
    lower_bracket selected target = some lo := by
  have h := lower_bracket_cases selected target
  cases hb : lower_bracket selected target with
  | none =>
    rw [hb] at h
    exact absurd (h lo h_lo_mem) (not_lt.mpr (le_of_lt h_lo))
  | some b =>
    rw [hb] at h
    obtain ⟨hb_mem, hb_le, hb_max⟩ := h
    have h1 : lo.coord ≤ b.coord := hb_max lo h_lo_mem (le_of_lt h_lo)
    have h2 : b.coord ≤ lo.coord := by
      rcases h_adjacent b hb_mem with h | h
      · exact h
      · exact absurd (lt_of_le_of_lt (le_trans h hb_le) h_hi) (lt_irrefl _)
    rw [h_unique b hb_mem (le_antisymm h2 h1)]

theorem upper_bracket_eq (selected : List Library) (lo hi : Library) (target : ℚ)
    (h_hi_mem : hi ∈ selected) (h_lo : lo.coord < target) (h_hi : target < hi.coord)
    (h_adjacent : ∀ l ∈ selected, l.coord ≤ lo.coord ∨ hi.coord ≤ l.coord)
    (h_unique : ∀ l ∈ selected, l.coord = hi.coord → l = hi) :
    upper_bracket selected target = some hi := by
  have h := upper_bracket_cases selected target
  cases hb : upper_bracket selected target with
  | none =>
    rw [hb] at h
    exact absurd (h hi h_hi_mem) (not_lt.mpr (le_of_lt h_hi))
  | some b =>
    rw [hb] at h
    obtain ⟨hb_mem, hb_le, hb_min⟩ := h
    have h1 : b.coord ≤ hi.coord := hb_min hi h_hi_mem (le_of_lt h_hi)
    have h2 : hi.coord ≤ b.coord := by
      rcases h_adjacent b hb_mem with h | h
      · exact absurd (lt_of_lt_of_le h_lo (le_trans hb_le h)) (lt_irrefl _)
      · exact h
    rw [h_unique b hb_mem (le_antisymm h1 h2)]

theorem interpolate_brackets (selected : List Library) (lo hi : Library) (target : ℚ)
    (h_lo_mem : lo ∈ selected) (h_hi_mem : hi ∈ selected)
    (h_lo : lo.coord < target) (h_hi : target < hi.coord)
    (h_adjacent : ∀ l ∈ selected, l.coord ≤ lo.coord ∨ hi.coord ≤ l.coord)
    (h_unique : ∀ l ∈ selected,
      (l.coord = lo.coord → l = lo) ∧ (l.coord = hi.coord → l = hi))
    (h_axis : ∀ l ∈ selected, l.burnup_axis = lo.burnup_axis) :
    interpolate selected target = Except.ok
      { coord := target
        burnup_axis := lo.burnup_axis
        concentrations :=
          List.zipWith (List.zipWith (blend (weight lo.coord hi.coord target)))
            lo.concentrations hi.concentrations } := by
  have hl := lower_bracket_eq selected lo hi target h_lo_mem h_lo h_hi h_adjacent
    (fun l hl => (h_unique l hl).1)
  have hu := upper_bracket_eq selected lo hi target h_hi_mem h_lo h_hi h_adjacent
    (fun l hl => (h_unique l hl).2)
  have hne : ¬ lo.coord = target := ne_of_lt h_lo
  have hall : selected.all (fun l => decide (l.burnup_axis = lo.burnup_axis)) = true := by
    rw [List.all_eq_true]
    intro l hl
    exact decide_eq_true (h_axis l hl)
  unfold interpolate
  rw [hl, hu]
  simp only [hne, if_false, hall, if_true]

/-- C1, as stated, fails: the libraries at 3 and 5 are a pair of matched
libraries with an identical burnup axis and the target 4 lies strictly between
their coordinates, yet with a third matched library at 7/2 the entry produced
at burnup point 0, column 0 is 203/3, which does not lie between the entries 1
and 3 of the pair. -/
theorem C1_interpolate_between_counterexample :
    lib_enrichment_3 ∈ matched_3_7_2_5 ∧ lib_enrichment_5 ∈ matched_3_7_2_5 ∧
    lib_enrichment_3.burnup_axis = lib_enrichment_5.burnup_axis ∧
    (∀ l ∈ matched_3_7_2_5, l.burnup_axis = lib_enrichment_3.burnup_axis) ∧
    lib_enrichment_3.coord < 4 ∧ (4 : ℚ) < lib_enrichment_5.coord ∧
    lib_enrichment_3.entry 0 0 = some 1 ∧ lib_enrichment_5.entry 0 0 = some 3 ∧
    ∃ r : Library, interpolate matched_3_7_2_5 4 = Except.ok r ∧
      r.entry 0 0 = some (203 / 3) ∧ ¬ ((203 / 3 : ℚ) ≤ max 1 3) := by
  have hr := interpolate_brackets matched_3_7_2_5 lib_enrichment_7_2 lib_enrichment_5 4
    (by simp [matched_3_7_2_5]) (by simp [matched_3_7_2_5])
    (by norm_num [lib_enrichment_7_2]) (by norm_num [lib_enrichment_5])
    (by norm_num [matched_3_7_2_5, lib_enrichment_3, lib_enrichment_7_2, lib_enrichment_5])
    (by norm_num [matched_3_7_2_5, lib_enrichment_3, lib_enrichment_7_2, lib_enrichment_5])
    (by simp [matched_3_7_2_5, lib_enrichment_3, lib_enrichment_7_2, lib_enrichment_5])
  refine ⟨by simp [matched_3_7_2_5], by simp [matched_3_7_2_5], rfl,
    by simp [matched_3_7_2_5, lib_enrichment_3, lib_enrichment_7_2, lib_enrichment_5],
    by norm_num [lib_enrichment_3], by norm_num [lib_enrichment_5],
    by simp [Library.entry, lib_enrichment_3], by simp [Library.entry, lib_enrichment_5],
    _, hr, ?_, by norm_num⟩
  norm_num [Library.entry, lib_enrichment_7_2, lib_enrichment_5, weight, blend]

/-- C1, amended: for every matched set of libraries that share one burnup axis
and every target strictly between the coordinates of its two bracketing
libraries (the matched libraries with the immediately lower and the
immediately upper coordinate, no other matched library sharing either
coordinate), `interpolate` produces a library on that burnup axis whose entries
are exactly the linear blends, with weight
`w = (target - lower)/(upper - lower)`, of the entries both bracketing
libraries have; each produced entry lies between the two bracketing entries,
and for bracket coordinates 3 and 5 and target 4 it is their arithmetic
mean. -/
theorem C1_interpolate_between_brackets (selected : List Library) (lo hi : Library)
    (target : ℚ)
    (h_lo_mem : lo ∈ selected) (h_hi_mem : hi ∈ selected)
    (h_lo : lo.coord < target) (h_hi : target < hi.coord)
    (h_adjacent : ∀ l ∈ selected, l.coord ≤ lo.coord ∨ hi.coord ≤ l.coord)
    (h_unique : ∀ l ∈ selected,
      (l.coord = lo.coord → l = lo) ∧ (l.coord = hi.coord → l = hi))
    (h_axis : ∀ l ∈ selected, l.burnup_axis = lo.burnup_axis) :
    ∃ r : Library,
      interpolate selected target = Except.ok r ∧
      r.coord = target ∧
      r.burnup_axis = lo.burnup_axis ∧
      (∀ i j : Nat, r.entry i j = (lo.entry i j).bind (fun x =>
        (hi.entry i j).map (fun y => blend (weight lo.coord hi.coord target) x y))) ∧
      (∀ (i j : Nat) (z : ℚ), r.entry i j = some z →
        ∃ x y : ℚ, lo.entry i j = some x ∧ hi.entry i j = some y ∧
          z = blend (weight lo.coord hi.coord target) x y ∧
          min x y ≤ z ∧ z ≤ max x y ∧
          (lo.coord = 3 → hi.coord = 5 → target = 4 → z = (x + y) / 2)) := by
  have hr := interpolate_brackets selected lo hi target h_lo_mem h_hi_mem h_lo h_hi
    h_adjacent h_unique h_axis
  obtain ⟨hw0, hw1⟩ := weight_pos_lt_one lo.coord hi.coord target h_lo h_hi
  refine ⟨_, hr, rfl, rfl, ?_, ?_⟩
  · intro i j
    exact entry_zipWith _ _ lo hi rfl i j
  · intro i j z hz
    rw [entry_zipWith _ _ lo hi rfl i j] at hz
    cases hx : lo.entry i j with
    | none => simp [hx] at hz
    | some x =>
      cases hy : hi.entry i j with
      | none => simp [hx, hy] at hz
      | some y =>
        simp only [hx, hy, Option.some_bind, Option.map_some', Option.some.injEq] at hz
        obtain ⟨hmin, hmax⟩ := blend_between _ x y hw0 hw1
        refine ⟨x, y, rfl, rfl, hz.symm, hz ▸ hmin, hz ▸ hmax, ?_⟩
        intro ha hb ht
        rw [← hz, ha, hb, ht]
        unfold blend weight
        norm_num
        ring

theorem C1_interpolate_between_brackets_witness :
    lib_enrichment_3 ∈ matched_2_3_5 ∧ lib_enrichment_5 ∈ matched_2_3_5 ∧
    lib_enrichment_3.coord < 4 ∧ (4 : ℚ) < lib_enrichment_5.coord ∧
    (∀ l ∈ matched_2_3_5, l.coord ≤ lib_enrichment_3.coord ∨ lib_enrichment_5.coord ≤ l.coord) ∧
    (∀ l ∈ matched_2_3_5, (l.coord = lib_enrichment_3.coord → l = lib_enrichment_3) ∧
      (l.coord = lib_enrichment_5.coord → l = lib_enrichment_5)) ∧
    (∀ l ∈ matched_2_3_5, l.burnup_axis = lib_enrichment_3.burnup_axis) ∧
    ∃ r : Library,
      interpolate matched_2_3_5 4 = Except.ok r ∧
      r.coord = 4 ∧
      r.burnup_axis = lib_enrichment_3.burnup_axis ∧
      (∀ i j : Nat, r.entry i j = (lib_enrichment_3.entry i j).bind (fun x =>
        (lib_enrichment_5.entry i j).map (fun y =>
          blend (weight lib_enrichment_3.coord lib_enrichment_5.coord 4) x y))) ∧
      (∀ (i j : Nat) (z : ℚ), r.entry i j = some z →
        ∃ x y : ℚ, lib_enrichment_3.entry i j = some x ∧ lib_enrichment_5.entry i j = some y ∧
          z = blend (weight lib_enrichment_3.coord lib_enrichment_5.coord 4) x y ∧
          min x y ≤ z ∧ z ≤ max x y ∧
          (lib_enrichment_3.coord = 3 → lib_enrichment_5.coord = 5 → (4 : ℚ) = 4 →
            z = (x + y) / 2)) :=
  ⟨by simp [matched_2_3_5], by simp [matched_2_3_5],
    by norm_num [lib_enrichment_3], by norm_num [lib_enrichment_5],
    by norm_num [matched_2_3_5, lib_enrichment_2, lib_enrichment_3, lib_enrichment_5],
    by norm_num [matched_2_3_5, lib_enrichment_2, lib_enrichment_3, lib_enrichment_5],
    by simp [matched_2_3_5, lib_enrichment_2, lib_enrichment_3, lib_enrichment_5],
    C1_interpolate_between_brackets matched_2_3_5 lib_enrichment_3 lib_enrichment_5 4
      (by simp [matched_2_3_5]) (by simp [matched_2_3_5])
      (by norm_num [lib_enrichment_3]) (by norm_num [lib_enrichment_5])
      (by norm_num [matched_2_3_5, lib_enrichment_2, lib_enrichment_3, lib_enrichment_5])
      (by norm_num [matched_2_3_5, lib_enrichment_2, lib_enrichment_3, lib_enrichment_5])
      (by simp [matched_2_3_5, lib_enrichment_2, lib_enrichment_3, lib_enrichment_5])⟩

/-- C2: for every target that lies outside the interval spanned by the
coordinates of the matched libraries (below all of them or above all of them),
`interpolate` fails with a range error and returns no library. -/
theorem C2_interpolate_out_of_range (selected : List Library) (target : ℚ)
    (h : (∀ l ∈ selected, target < l.coord) ∨ (∀ l ∈ selected, l.coord < target)) :
    interpolate selected target = Except.error Error.RangeError ∧
    ∀ r : Library, interpolate selected target ≠ Except.ok r := by
  have key : interpolate selected target = Except.error Error.RangeError := by
    unfold interpolate
    rcases h with h | h
    · rw [lower_bracket_none selected target h]
    · rw [upper_bracket_none selected target h]
      cases lower_bracket selected target <;> rfl
  refine ⟨key, ?_⟩
  intro r hr
  rw [key] at hr
  cases hr

theorem C2_interpolate_out_of_range_witness :
    ((∀ l ∈ [lib_enrichment_3, lib_enrichment_5], (6 : ℚ) < l.coord) ∨
      (∀ l ∈ [lib_enrichment_3, lib_enrichment_5], l.coord < (6 : ℚ))) ∧
    interpolate [lib_enrichment_3, lib_enrichment_5] 6 = Except.error Error.RangeError ∧
    ∀ r : Library, interpolate [lib_enrichment_3, lib_enrichment_5] 6 ≠ Except.ok r :=
  ⟨Or.inr (by norm_num [lib_enrichment_3, lib_enrichment_5]),
    C2_interpolate_out_of_range [lib_enrichment_3, lib_enrichment_5] 6
      (Or.inr (by norm_num [lib_enrichment_3, lib_enrichment_5]))⟩

/-! ## The guard of the solve -/

/-- C3: for every call `solve(times, fluxes, powers)` in which both fluxes and
powers are non-empty, the call fails with a configuration error and leaves the
orchestrator as it was, whatever the solver is: the solver is not invoked, no
step is solved and no step record is appended. -/
theorem C3_solve_rejects_flux_and_power (c : Collaborators) (o : Orchestrator)
    (times fluxes powers : List ℚ) (hf : fluxes ≠ []) (hp : powers ≠ []) :
    solve c o times fluxes powers = (o, some Error.ConfigurationError) ∧
    (solve c o times fluxes powers).1.solver_calls = o.solver_calls ∧
    (solve c o times fluxes powers).1.records = o.records ∧
    (solve c o times fluxes powers).1.material = o.material := by
  have key : solve c o times fluxes powers = (o, some Error.ConfigurationError) := by
    simp [solve, validate_history, hf, hp]
  rw [key]
  exact ⟨rfl, rfl, rfl, rfl⟩

theorem C3_solve_rejects_flux_and_power_witness :
    [(1 : ℚ), 1] ≠ [] ∧ [(1000 : ℚ), 1000] ≠ [] ∧
    solve collaborators_example orchestrator_example [0, 100, 200] [1, 1] [1000, 1000]
      = (orchestrator_example, some Error.ConfigurationError) ∧
    (solve collaborators_example orchestrator_example [0, 100, 200] [1, 1]
      [1000, 1000]).1.solver_calls = orchestrator_example.solver_calls ∧
    (solve collaborators_example orchestrator_example [0, 100, 200] [1, 1]
      [1000, 1000]).1.records = orchestrator_example.records ∧
    (solve collaborators_example orchestrator_example [0, 100, 200] [1, 1]
      [1000, 1000]).1.material = orchestrator_example.material :=
  ⟨by simp, by simp,
    C3_solve_rejects_flux_and_power collaborators_example orchestrator_example
      [0, 100, 200] [1, 1] [1000, 1000] (by simp) (by simp)⟩

/-- The power scenario of spec section 8 on the model: times `[0, 100, 200]`
and powers `[1000, 1000]` with no fluxes pass the guard, the solver is invoked
once per step and two step records are appended, the second from time 100 to
time 200. -/
theorem solve_power_history_example :
    (solve collaborators_example orchestrator_example [0, 100, 200] [] [1000, 1000]).2 = none ∧
    (solve collaborators_example orchestrator_example [0, 100, 200] []
      [1000, 1000]).1.solver_calls = 2 ∧
    (solve collaborators_example orchestrator_example [0, 100, 200] []
      [1000, 1000]).1.records.map (fun r => (r.start_time, r.end_time, r.burnup_end))
      = [(0, 100, 5), (100, 200, 10)] := by
  have hv : validate_history [0, 100, 200] [] [1000, 1000]
      = Except.ok (Mode.POWER, [1000, 1000]) := by
    simp [validate_history, burn_steps]
    norm_num
  have h1 : slice_at_burnup lib_enrichment_3 5 = Except.ok [2, 3] := by
    norm_num [slice_at_burnup, interpolate, burnup_points, lower_bracket, upper_bracket,
      lib_enrichment_3, weight, blend]
  have h2 : slice_at_burnup lib_enrichment_3 10 = Except.ok [3, 4] := by
    norm_num [slice_at_burnup, interpolate, burnup_points, lower_bracket, upper_bracket,
      lib_enrichment_3]
  have hb1 : (0 : ℚ) + 1 / 20000 * (1000 * (100 - 0)) / 1 = 5 := by norm_num
  simp only [solve, hv, solve_steps, current_burnup, burnup_increment, collaborators_example,
    orchestrator_example, List.getLast?_nil, List.nil_append, hb1, h1]
  have hb3 : (5 : ℚ) + 20000⁻¹ * (1000 * (200 - 100)) = 10 := by norm_num
  simp [hb3, h2]

/-! ## Default unit names -/

/-- C7, as stated, fails: the default time unit of `get_times` is `d`, which is
not one of seconds, minutes, hours, days, years, and the default power unit of
`get_powers` is `W`, which is not in lower case; so not every default unit
name is a lower-case full word. -/
theorem C7_default_units_counterexample :
    get_times_default_units ∉ time_unit_names ∧
    is_all_lower_case get_powers_default_units = false ∧
    ¬ ((∀ s ∈ default_unit_arguments, is_all_lower_case s = true) ∧
        get_times_default_units ∈ time_unit_names) := by
  decide

/-- C7, amended: every mass unit name supplied as a default argument
(`get_masses`, `get_masses_at`, `get_masses_final` and their map variants) is
the lower-case full word `kilograms`; the default time unit of `get_times` is
the abbreviation `d` and the default power unit of `get_powers` is the
abbreviation `W`. -/
theorem C7_default_units_amended :
    (∀ s ∈ [get_masses_default_units, get_masses_at_default_units,
        get_masses_at_map_default_units, get_masses_final_default_units,
        get_masses_final_map_default_units],
      s = "kilograms" ∧ is_all_lower_case s = true) ∧
    get_times_default_units = "d" ∧
    get_powers_default_units = "W" := by
  decide

/-! ## Nuclide ID round trip -/

theorem nuclide_of_zzzaaai_encode (n : Nuclide) (ha : n.aaa < 1000) (hi : n.i < 10) :
    nuclide_of_zzzaaai n.zzzaaai = n := by
  obtain ⟨zzz, aaa, i⟩ := n
  simp only [nuclide_of_zzzaaai, Nuclide.zzzaaai, Nuclide.mk.injEq] at ha hi ⊢
  omega

theorem nuclide_of_pizzzaaa_encode (n : Nuclide) (hz : n.zzz < 1000) (ha : n.aaa < 1000)
    (hi : n.i < 10) : nuclide_of_pizzzaaa n.pizzzaaa = n := by
  obtain ⟨zzz, aaa, i⟩ := n
  simp only [nuclide_of_pizzzaaa, Nuclide.pizzzaaa, Nuclide.mk.injEq] at hz ha hi ⊢
  omega

theorem nuclide_of_zzzaaai_bounds (z : Nat) :
    (nuclide_of_zzzaaai z).aaa < 1000 ∧ (nuclide_of_zzzaaai z).i < 10 ∧
    (valid_zzzaaai z → (nuclide_of_zzzaaai z).zzz < 1000) := by
  simp only [nuclide_of_zzzaaai, valid_zzzaaai]
  omega

theorem nuclide_of_pizzzaaa_bounds (p : Nat) :
    (nuclide_of_pizzzaaa p).zzz < 1000 ∧ (nuclide_of_pizzzaaa p).aaa < 1000 ∧
    (nuclide_of_pizzzaaa p).i < 10 := by
  simp only [nuclide_of_pizzzaaa]
  omega

theorem zzzaaai_encode_decode (z : Nat) : (nuclide_of_zzzaaai z).zzzaaai = z := by
  simp only [nuclide_of_zzzaaai, Nuclide.zzzaaai]
  omega

theorem pizzzaaa_encode_decode (p : Nat) (hp : valid_pizzzaaa p) :
    (nuclide_of_pizzzaaa p).pizzzaaa = p := by
  simp only [nuclide_of_pizzzaaa, Nuclide.pizzzaaa, valid_pizzzaaa] at hp ⊢
  omega

theorem pizzzaaa_to_zzzaaai_valid (p : Nat) : valid_zzzaaai (pizzzaaa_to_zzzaaai p) := by
  obtain ⟨hz, ha, hi⟩ := nuclide_of_pizzzaaa_bounds p
  simp only [valid_zzzaaai, pizzzaaa_to_zzzaaai, Nuclide.zzzaaai]
  omega

theorem nuclide_of_pizzzaaa_to_zzzaaai (p : Nat) :
    nuclide_of_zzzaaai (pizzzaaa_to_zzzaaai p) = nuclide_of_pizzzaaa p := by
  obtain ⟨_, ha, hi⟩ := nuclide_of_pizzzaaa_bounds p
  exact nuclide_of_zzzaaai_encode _ ha hi

theorem zzzaaai_round_trip (z : Nat) (hz : valid_zzzaaai z) :
    valid_pizzzaaa (zzzaaai_to_pizzzaaa z) ∧
    pizzzaaa_to_zzzaaai (zzzaaai_to_pizzzaaa z) = z ∧
    nuclide_of_pizzzaaa (zzzaaai_to_pizzzaaa z) = nuclide_of_zzzaaai z := by
  obtain ⟨ha, hi, hzz⟩ := nuclide_of_zzzaaai_bounds z
  have hdec : nuclide_of_pizzzaaa (zzzaaai_to_pizzzaaa z) = nuclide_of_zzzaaai z :=
    nuclide_of_pizzzaaa_encode _ (hzz hz) ha hi
  refine ⟨?_, ?_, hdec⟩
  · have h3 := hzz hz
    simp only [valid_pizzzaaa, zzzaaai_to_pizzzaaa, Nuclide.pizzzaaa]
    omega
  · unfold pizzzaaa_to_zzzaaai
    rw [hdec]
    exact zzzaaai_encode_decode z

theorem pizzzaaa_round_trip (p : Nat) (hp : valid_pizzzaaa p) :
    zzzaaai_to_pizzzaaa (pizzzaaa_to_zzzaaai p) = p := by
  unfold zzzaaai_to_pizzzaaa
  rw [nuclide_of_pizzzaaa_to_zzzaaai]
  exact pizzzaaa_encode_decode p hp

/-- C8: every ID returned by `get_ids_zzzaaai` survives the round trip zzzaaai
to pizzzaaa to zzzaaai; the `i`-th ID of `get_ids` and the `i`-th ID of
`get_ids_zzzaaai` read as the same nuclide; and the two conversions are
inverse bijections between the well-formed zzzaaai IDs and the well-formed
pizzzaaa IDs. -/
theorem C8_id_round_trip (self : cyclus2origen) (ids : List Nat) (z p : Nat)
    (h_ids : self.get_ids = some ids) (hz : valid_zzzaaai z) (hp : valid_pizzzaaa p) :
    (∃ zs : List Nat, self.get_ids_zzzaaai = some zs ∧ zs.length = ids.length ∧
      ∀ (i id zid : Nat), ids[i]? = some id → zs[i]? = some zid →
        pizzzaaa_to_zzzaaai (zzzaaai_to_pizzzaaa zid) = zid ∧
        nuclide_of_zzzaaai zid = nuclide_of_pizzzaaa id) ∧
    (valid_pizzzaaa (zzzaaai_to_pizzzaaa z) ∧
      pizzzaaa_to_zzzaaai (zzzaaai_to_pizzzaaa z) = z ∧
      nuclide_of_pizzzaaa (zzzaaai_to_pizzzaaa z) = nuclide_of_zzzaaai z) ∧
    (valid_zzzaaai (pizzzaaa_to_zzzaaai p) ∧
      zzzaaai_to_pizzzaaa (pizzzaaa_to_zzzaaai p) = p) := by
  refine ⟨⟨ids.map pizzzaaa_to_zzzaaai, ?_, by simp, ?_⟩, zzzaaai_round_trip z hz,
    pizzzaaa_to_zzzaaai_valid p, pizzzaaa_round_trip p hp⟩
  · simp [cyclus2origen.get_ids_zzzaaai, h_ids]
  · intro i id zid hid hzid
    rw [List.getElem?_map, hid] at hzid
    simp only [Option.map_some', Option.some.injEq] at hzid
    subst hzid
    exact ⟨(zzzaaai_round_trip _ (pizzzaaa_to_zzzaaai_valid id)).2.1,
      nuclide_of_pizzzaaa_to_zzzaaai id⟩

theorem C8_id_round_trip_witness :
    interface_example.get_ids = some [92235, 1095242] ∧
    valid_zzzaaai 952421 ∧ valid_pizzzaaa 1095242 ∧
    (∃ zs : List Nat, interface_example.get_ids_zzzaaai = some zs ∧
      zs.length = [92235, 1095242].length ∧
      ∀ (i id zid : Nat), [92235, 1095242][i]? = some id → zs[i]? = some zid →
        pizzzaaa_to_zzzaaai (zzzaaai_to_pizzzaaa zid) = zid ∧
        nuclide_of_zzzaaai zid = nuclide_of_pizzzaaa id) ∧
    (valid_pizzzaaa (zzzaaai_to_pizzzaaa 952421) ∧
      pizzzaaa_to_zzzaaai (zzzaaai_to_pizzzaaa 952421) = 952421 ∧
      nuclide_of_pizzzaaa (zzzaaai_to_pizzzaaa 952421) = nuclide_of_zzzaaai 952421) ∧
    (valid_zzzaaai (pizzzaaa_to_zzzaaai 1095242) ∧
      zzzaaai_to_pizzzaaa (pizzzaaa_to_zzzaaai 1095242) = 1095242) :=
  ⟨rfl, by decide, by decide,
    C8_id_round_trip interface_example [92235, 1095242] 952421 1095242 rfl
      (by decide) (by decide)⟩

end OrigenInterface
